import Mathlib

/-!
Shallow embedding of the degradation-pipeline engine of the `xunvivi/python`
repository (src/core, src/degradations, src/single_main.py, src/composite_main.py).

Modelling conventions:
* Python `float` and `int` scalars are modelled as exact rationals `ℚ`
  (respectively integers `ℤ`); every computation the claims touch is exact
  dyadic/decimal arithmetic where `Float` and `ℚ` agree.
* `numpy` arrays are modelled by `Frame`: an explicit shape, an element type tag
  and a flat list of scalar entries.
* External collaborators (OpenCV primitives such as `cv2.warpAffine`,
  `cv2.addWeighted`, `cv2.GaussianBlur`, the codec round trip, and the
  `np.random` draws) are passed in as opaque function parameters: the spec
  declares them external, and no claim depends on their pixel arithmetic.
* Python exceptions are modelled by the `PyErr` type; `raise` becomes
  `Except.error`.
-/

namespace Degrade

/-- Python `int(x)` on a rational scalar: truncation toward zero. -/
def pyInt (q : ℚ) : ℤ :=
  if 0 ≤ q then ⌊q⌋ else -⌊-q⌋

/-- `np.clip(x, lo, hi)` on a scalar: `min(hi, max(lo, x))`. -/
def npClip (x lo hi : ℚ) : ℚ :=
  min hi (max lo x)

/-- Python `a % b` on scalars (sign of the divisor); used for `angle % 360`. -/
def pyMod (a b : ℚ) : ℚ :=
  a - b * ⌊a / b⌋

/-- The numpy dtypes the base contract accepts (base_degradation.py line 164). -/
inductive Dtype where
  | uint8
  | float32
  | float64
  deriving DecidableEq, Repr

/-- A numpy array: one image (`H×W×C`) or one frame batch (`N×H×W×C`),
with its shape, element type and flat row-major entries. -/
structure Frame where
  shape : List ℕ
  dtype : Dtype
  data : List ℚ
  deriving DecidableEq, Repr

/-- Python exceptions raised by the engine, keeping the data their messages
carry (`ValueError`/`TypeError` text, the unsupported-name listings, and the
pipeline wrappers with 1-indexed position). -/
inductive PyErr where
  | valueError (msg : String)
  | typeError (msg : String)
  | unknownType (name : String) (supported : List String)
  | badEntry (pos : ℕ) (msg : String)
  | loadFailed (name : String) (cause : PyErr)
  | execFailed (pos : ℕ) (name : String)
  deriving DecidableEq, Repr

/-- `BaseDegradation._validate_input_data` (base_degradation.py lines 153-167):
rank must be 3 or 4 and the dtype one of uint8/float32/float64.
(The `isinstance(data, np.ndarray)` check is vacuous here: a `Frame` is
always an array.) -/
def validateInputData (f : Frame) : Except PyErr Unit :=
  if f.shape.length = 3 ∨ f.shape.length = 4 then
    if f.dtype = Dtype.uint8 ∨ f.dtype = Dtype.float32 ∨ f.dtype = Dtype.float64 then
      Except.ok ()
    else
      Except.error (PyErr.typeError "输入数据类型必须是uint8或float32或float64")
  else
    Except.error (PyErr.valueError "输入数据维度必须是3或4")

/-- `BaseDegradation.preprocess` default: identity (lines 97-110). -/
def defaultPreprocess (f : Frame) : Frame := f

/-- `BaseDegradation.postprocess` default (lines 112-126):
`np.clip(data, 0, 255)` then `astype(np.uint8)` (truncation of the clipped
value, which is a floor on the nonnegative clipped range). -/
def defaultPostprocess (f : Frame) : Frame :=
  { shape := f.shape
    dtype := Dtype.uint8
    data := f.data.map (fun x => ((pyInt (npClip x 0 255) : ℤ) : ℚ)) }

/-- `BaseDegradation.process` (lines 128-151): validate the input, then chain
preprocess → apply → postprocess.  The `except` clause only logs and re-raises,
so any exception propagates unchanged. -/
def baseProcess (pre : Frame → Frame) (applyFn : Frame → Except PyErr Frame)
    (post : Frame → Frame) (data : Frame) : Except PyErr Frame :=
  match validateInputData data with
  | Except.error e => Except.error e
  | Except.ok _ =>
    let preprocessed := pre data
    match applyFn preprocessed with
    | Except.error e => Except.error e
    | Except.ok degraded => Except.ok (post degraded)

/-- `Stage1Degradation.apply` (stage1_degradation.py lines 93-130): run the four
sub-effects strictly in the order blur → resample → noise → compression, the
output of each fed to the next.  Each sub-effect is modelled by its `process`
function (a field of the stage object, abstracted as a parameter); there is no
`try`/`except` in `apply`, so a sub-effect's exception propagates unchanged. -/
def stage1Apply {E : Type} (blurProcess resampleProcess noiseProcess compressionProcess :
    Frame → Except E Frame) (data : Frame) : Except E Frame :=
  match blurProcess data with
  | Except.error e => Except.error e
  | Except.ok blurred =>
    match resampleProcess blurred with
    | Except.error e => Except.error e
    | Except.ok resampled =>
      match noiseProcess resampled with
      | Except.error e => Except.error e
      | Except.ok noisy =>
        match compressionProcess noisy with
        | Except.error e => Except.error e
        | Except.ok compressed => Except.ok compressed

/-- `Stage2Degradation.apply` (stage2_degradation.py lines 115-151): identical
structure to stage 1 (stronger default parameters, same order, no wrapping). -/
def stage2Apply {E : Type} (blurProcess resampleProcess noiseProcess compressionProcess :
    Frame → Except E Frame) (data : Frame) : Except E Frame :=
  match blurProcess data with
  | Except.error e => Except.error e
  | Except.ok blurred =>
    match resampleProcess blurred with
    | Except.error e => Except.error e
    | Except.ok resampled =>
      match noiseProcess resampled with
      | Except.error e => Except.error e
      | Except.ok noisy =>
        match compressionProcess noisy with
        | Except.error e => Except.error e
        | Except.ok compressed => Except.ok compressed

/-! ### Parameter validators

Each Python effect validates `self.params` (a dict) in place.  We model the
dict as a record of `Option` fields (a missing key is `none`); validation
returns the updated record, or an `Except` when the code can raise. -/

/-- Raw parameters accepted by `BlurDegradation` (blur.py line 8). -/
structure BlurParams where
  blur_type : Option String
  kernel_size : Option ℤ
  sigma : Option ℚ
  deriving DecidableEq, Repr

/-- The kernel-size normalization of `BlurDegradation.validate_params`
(blur.py lines 19-23): `ks = max(1, ks)` then `ks if ks % 2 == 1 else
ks + 1`. -/
def blurKernelNormalize (ks0 : ℤ) : ℤ :=
  let k1 := max 1 ks0
  if k1 % 2 = 1 then k1 else k1 + 1

/-- `BlurDegradation.validate_params` (blur.py lines 10-39): default the blur
type to 高斯模糊, force the kernel size positive then odd (`max(1, ks)` and
`+1` when even), and for Gaussian blur force `sigma = max(0.1, sigma)`.
It never raises. -/
def blurValidateParams (p : BlurParams) : BlurParams :=
  let bt := p.blur_type.getD "高斯模糊"
  let ks := match p.kernel_size with
    | some ks0 => blurKernelNormalize ks0
    | none => 5
  let p1 : BlurParams := { blur_type := some bt, kernel_size := some ks, sigma := p.sigma }
  if bt = "高斯模糊" then
    { p1 with sigma := some (max (1/10) (p.sigma.getD 1)) }
  else
    p1

/-- Raw parameters accepted by `NoiseDegradation` (noise.py line 11). -/
structure NoiseParams where
  noise_type : Option String
  intensity : Option ℚ
  density : Option ℚ
  salt_pepper_ratio : Option ℚ
  deriving DecidableEq, Repr

/-- `NoiseDegradation.validate_params` (noise.py lines 13-61): reject unknown
noise types; clip the intensity (range depending on the type); for 椒盐噪声
(salt-pepper) convert the density from a percentage (`density / 100`) and clip
it into `[0.01, 0.2]`, and clip the salt ratio into `[0.1, 0.9]`; for the
other types pop the salt-pepper-only keys. -/
def noiseValidateParams (p : NoiseParams) : Except PyErr NoiseParams :=
  let noise_type := p.noise_type.getD "高斯噪声"
  if noise_type ∉ ["高斯噪声", "泊松噪声", "椒盐噪声"] then
    Except.error (PyErr.valueError "不支持的噪声类型")
  else if noise_type = "椒盐噪声" then
    let intensity := npClip (p.intensity.getD 1) (1/100) 1
    let density_percent := p.density.getD 5
    let density := npClip (density_percent / 100) (1/100) (1/5)
    let salt_ratio := npClip (p.salt_pepper_ratio.getD (1/2)) (1/10) (9/10)
    Except.ok { noise_type := some noise_type, intensity := some intensity,
                density := some density, salt_pepper_ratio := some salt_ratio }
  else
    let intensity := npClip (p.intensity.getD 5) (1/100) 30
    Except.ok { noise_type := some noise_type, intensity := some intensity,
                density := none, salt_pepper_ratio := none }

/-- Raw parameters accepted by `MotionBlurDegradation` (motion_blur.py line 9).
The claims quantify over integer `kernel_size` inputs, so the field is `ℤ`. -/
structure MotionBlurParams where
  kernel_size : Option ℤ
  angle : Option ℚ
  deriving DecidableEq, Repr

/-- Normalized motion-blur parameters. -/
structure MotionBlurParamsOut where
  kernel_size : ℤ
  angle : ℚ
  deriving DecidableEq, Repr

/-- `MotionBlurDegradation.validate_params` (motion_blur.py lines 11-20):
`ks if ks % 2 == 1 else ks + 1` — the kernel size is made odd but, unlike
blur.py, never forced positive; the angle is reduced `angle % 360`
(Python `%`: sign of the divisor). -/
def motionBlurValidateParams (p : MotionBlurParams) : MotionBlurParamsOut :=
  let ks := p.kernel_size.getD 15
  { kernel_size := if ks % 2 = 1 then ks else ks + 1
    angle := pyMod (p.angle.getD 0) 360 }

/-- Raw parameters accepted by `EdgeArtifactDegradation` (edge_artifact.py
line 9). -/
structure EdgeArtifactParams where
  strength : Option ℚ
  kernel_size : Option ℚ
  deriving DecidableEq, Repr

/-- Normalized edge-artifact parameters. -/
structure EdgeArtifactParamsOut where
  strength : ℚ
  kernel_size : ℤ
  deriving DecidableEq, Repr

/-- `EdgeArtifactDegradation.validate_params` (edge_artifact.py lines 11-25):
clamp `strength` into `[0, 1]` via `max(0.0, min(1.0, strength))`; take
`int(kernel_size)`, replace non-positive values by 3, and add 1 to even
values. -/
def edgeArtifactValidateParams (p : EdgeArtifactParams) : EdgeArtifactParamsOut :=
  let strength := max 0 (min 1 (p.strength.getD (1/2)))
  let k0 := pyInt (p.kernel_size.getD 3)
  let k1 := if k0 ≤ 0 then 3 else k0
  { strength := strength
    kernel_size := if k1 % 2 = 0 then k1 + 1 else k1 }

/-- Raw parameters accepted by `InterlaceDegradation` (interlace.py line 7). -/
structure InterlaceParams where
  intensity : Option ℚ
  deriving DecidableEq, Repr

/-- Normalized interlace parameters. -/
structure InterlaceParamsOut where
  intensity : ℚ
  deriving DecidableEq, Repr

/-- `InterlaceDegradation.validate_params` (interlace.py lines 9-12):
`np.clip(intensity, 0, 1)`.  Never raises. -/
def interlaceValidateParams (p : InterlaceParams) : InterlaceParamsOut :=
  { intensity := npClip (p.intensity.getD (1/2)) 0 1 }

/-- The `spot_color` argument of `DirtDegradation`: a named color string, a
grayscale number, or an RGB triple (dirt.py lines 47-65). -/
inductive DirtColor where
  | str (s : String)
  | num (q : ℚ)
  | rgb (l : List ℚ)
  deriving DecidableEq, Repr

/-- Raw parameters accepted by `DirtDegradation` (dirt.py line 9). -/
structure DirtParams where
  num_spots : Option ℚ
  size_range : Option (List ℚ)
  darkness : Option ℚ
  spot_size : Option ℚ
  spot_color : Option DirtColor
  deriving DecidableEq, Repr

/-- Normalized dirt parameters. -/
structure DirtParamsOut where
  num_spots : ℤ
  size_range : List ℤ
  darkness : ℚ
  spot_size : ℤ
  spot_color : ℤ × ℤ × ℤ
  deriving DecidableEq, Repr

/-- Python `str.lower()` restricted to the ASCII names the color map uses. -/
def pyLower (s : String) : String :=
  String.mk (s.data.map Char.toLower)

/-- The predefined dirt color palette (dirt.py lines 40-45). -/
def dirtColorMap : List (String × (ℤ × ℤ × ℤ)) :=
  [("black", (0, 0, 0)), ("brown", (70, 40, 10)),
   ("gray", (100, 100, 100)), ("dark_brown", (40, 20, 5))]

/-- `DirtDegradation.validate_params` (dirt.py lines 11-67): force
`num_spots = max(0, int(num_spots))`; `spot_size` (when given) wins over
`size_range`; clamp `darkness` into `[0, 1]`; parse `spot_color` (palette
name, grayscale number clamped to `[0, 255]`, or RGB triple with each channel
clamped), raising for unknown names or wrong-arity triples. -/
def dirtValidateParams (p : DirtParams) : Except PyErr DirtParamsOut :=
  let num_spots := max 0 (pyInt (p.num_spots.getD 5))
  let sizes : Except PyErr (List ℤ × ℤ) :=
    match p.spot_size with
    | some s0 =>
      let ss := max 1 (pyInt s0)
      Except.ok ([ss, ss], ss)
    | none =>
      let sr := p.size_range.getD [5, 20]
      if sr.length ≠ 2 ∨ sr.getD 0 0 > sr.getD 1 0 then
        Except.error (PyErr.valueError "size_range必须是最小最大格式的列表")
      else
        let a := max 1 (pyInt (sr.getD 0 0))
        let b := max a (pyInt (sr.getD 1 0))
        Except.ok ([a, b], a)
  match sizes with
  | Except.error e => Except.error e
  | Except.ok (size_range, spot_size) =>
    let darkness := max 0 (min 1 (p.darkness.getD (3/5)))
    let colorResult : Except PyErr (ℤ × ℤ × ℤ) :=
      match p.spot_color.getD (DirtColor.rgb [0, 0, 0]) with
      | DirtColor.str s =>
        match dirtColorMap.lookup (pyLower s) with
        | some c => Except.ok c
        | none => Except.error (PyErr.valueError "不支持的颜色名称")
      | DirtColor.num q =>
        let c := pyInt (max 0 (min 255 q))
        Except.ok (c, c, c)
      | DirtColor.rgb l =>
        if l.length ≠ 3 then
          Except.error (PyErr.valueError "spot_color元组必须包含3个元素")
        else
          Except.ok (pyInt (max 0 (min 255 (l.getD 0 0))),
                     pyInt (max 0 (min 255 (l.getD 1 0))),
                     pyInt (max 0 (min 255 (l.getD 2 0))))
    match colorResult with
    | Except.error e => Except.error e
    | Except.ok spot_color =>
      Except.ok { num_spots := num_spots, size_range := size_range,
                  darkness := darkness, spot_size := spot_size,
                  spot_color := spot_color }

/-- Raw parameters accepted by `FlickerDegradation` (flicker.py line 8). -/
structure FlickerParams where
  range : Option (List ℚ)
  intensity : Option ℚ
  frequency : Option ℚ
  amplitude : Option ℚ
  deriving DecidableEq, Repr

/-- Normalized flicker parameters. -/
structure FlickerParamsOut where
  range : List ℚ
  intensity : ℚ
  frequency : ℚ
  amplitude : ℚ
  deriving DecidableEq, Repr

/-- `FlickerDegradation.validate_params` (flicker.py lines 14-38): the range
list must be a two-element increasing list; `intensity` is clamped into
`[0, 1]` via `max(0.0, min(1.0, intensity))`; negative `frequency` or
`amplitude` raise. -/
def flickerValidateParams (p : FlickerParams) : Except PyErr FlickerParamsOut :=
  let flicker_range := p.range.getD [1/2, 3/2]
  if flicker_range.length ≠ 2 ∨ flicker_range.getD 0 0 ≥ flicker_range.getD 1 0 then
    Except.error (PyErr.valueError "range必须是长度为2的递增列表")
  else
    let intensity := max 0 (min 1 (p.intensity.getD 1))
    let frequency := p.frequency.getD 5
    if frequency < 0 then
      Except.error (PyErr.valueError "frequency不能为负数")
    else
      let amplitude := p.amplitude.getD (1/2)
      if amplitude < 0 then
        Except.error (PyErr.valueError "amplitude不能为负数")
      else
        Except.ok { range := flicker_range, intensity := intensity,
                    frequency := frequency, amplitude := amplitude }

/-- Raw parameters accepted by `ShakeDegradation` (shake.py line 9). -/
structure ShakeParams where
  max_offset : Option ℚ
  mix_weight : Option ℚ
  frequency : Option ℚ
  displacement : Option ℚ
  deriving DecidableEq, Repr

/-- Normalized shake parameters (the dict after `validate_params`). -/
structure ShakeParamsOut where
  max_offset : ℤ
  mix_weight : ℚ
  frequency : ℚ
  displacement : ℤ
  deriving DecidableEq, Repr

/-- The `mix_weight`/`frequency` checks of `ShakeDegradation.validate_params`
(shake.py lines 38-50), shared by both displacement branches: require
`mix_weight` strictly inside `(0, 1)` and `frequency ≥ 0` (both raise when
violated, nothing is clamped). -/
def shakeValidateRest (p : ShakeParams) (max_offset' displacement : ℤ) :
    Except PyErr ShakeParamsOut :=
  let mix_weight := p.mix_weight.getD (1/2)
  if ¬(0 < mix_weight ∧ mix_weight < 1) then
    Except.error (PyErr.valueError "mix_weight必须在01开区间范围内")
  else
    let frequency := p.frequency.getD 0
    if frequency < 0 then
      Except.error (PyErr.valueError "frequency不能为负数")
    else
      Except.ok { max_offset := max_offset', mix_weight := mix_weight,
                  frequency := frequency, displacement := displacement }

/-- `ShakeDegradation.validate_params` (shake.py lines 15-50): check
`int(max_offset) ≥ 1`; when `displacement` is supplied check
`int(displacement) ≥ 1` and overwrite `max_offset` with it, otherwise use
`max_offset` as the displacement; then run the `mix_weight`/`frequency`
checks. -/
def shakeValidateParams (p : ShakeParams) : Except PyErr ShakeParamsOut :=
  let max_offset := pyInt (p.max_offset.getD 5)
  if max_offset < 1 then
    Except.error (PyErr.valueError "max_offset必须是正整数")
  else
    match p.displacement with
    | some d0 =>
      let d := pyInt d0
      if d < 1 then
        Except.error (PyErr.valueError "displacement必须是正整数")
      else
        shakeValidateRest p d d
    | none => shakeValidateRest p max_offset max_offset

/-! ### Frequency gating and the stateful video effects -/

/-- The gating tick of `ShakeDegradation.apply` (shake.py line 63):
`frame_interval = max(1, int(30 / frequency))` — `int()` truncation of the
exact quotient (`30 / frequency` is nonnegative here, so truncation is a
floor).  The division is exact in our rational model; at every input used in
a theorem below the Python `float` division agrees with ℚ. -/
def shakeFrameInterval (frequency : ℚ) : ℤ :=
  max 1 (pyInt (30 / frequency))

/-- The gate of `ShakeDegradation.apply` (shake.py lines 61-64): when
`frequency > 0`, jitter exactly when `frame_counter % frame_interval == 0`;
otherwise jitter on every frame. -/
def shakeShouldJitter (frequency : ℚ) (frame_counter : ℕ) : Bool :=
  if 0 < frequency then
    decide ((frame_counter : ℤ) % shakeFrameInterval frequency = 0)
  else
    true

/-- The gating tick of `FlickerDegradation.apply` (flicker.py line 48):
`max(1, int(30 / (frequency + 1e-6)))`, with the epsilon modelled exactly. -/
def flickerFrameInterval (frequency : ℚ) : ℤ :=
  max 1 (pyInt (30 / (frequency + 1/1000000)))

/-- The gate of `FlickerDegradation.apply` (flicker.py line 49). -/
def flickerShouldFlicker (frequency : ℚ) (frame_counter : ℕ) : Bool :=
  decide ((frame_counter : ℤ) % flickerFrameInterval frequency = 0)

/-- A stream of `np.random.randint(low, high)` draws: the first argument
numbers the call within one `apply`. -/
def RandIntStream : Type := ℕ → ℤ → ℤ → ℤ

/-- `ShakeDegradation.apply` (shake.py lines 52-91).  `cv2.warpAffine` (with
the `[[1,0,dx],[0,1,dy]]` translation matrix and wrap-around border) and
`cv2.addWeighted` are external OpenCV collaborators passed as parameters;
the random displacement draws come from `randint`.  Returns the produced
frame together with the updated `frame_counter`: both branches increment the
counter exactly once. -/
def shakeApply (p : ShakeParamsOut) (warpAffine : Frame → ℤ → ℤ → Frame)
    (addWeighted : Frame → ℚ → Frame → ℚ → Frame) (randint : RandIntStream)
    (data : Frame) (frame_counter : ℕ) : Frame × ℕ :=
  if shakeShouldJitter p.frequency frame_counter = false then
    (data, frame_counter + 1)
  else
    let dx := randint 0 (-p.displacement) (p.displacement + 1)
    let dy := randint 1 (-p.displacement) (p.displacement + 1)
    let jittered := warpAffine data dx dy
    let result := addWeighted data p.mix_weight jittered (1 - p.mix_weight)
    (result, frame_counter + 1)

/-- `result[y1:y2, x1:x2] *= factor` on the flat row-major entries of an
`H×W×3` frame (flicker.py line 70). -/
def scaleRegion (d : List ℚ) (w y1 y2 x1 x2 : ℕ) (factor : ℚ) : List ℚ :=
  d.mapIdx fun i v =>
    let y := i / (w * 3)
    let x := (i % (w * 3)) / 3
    if y1 ≤ y ∧ y < y2 ∧ x1 ≤ x ∧ x < x2 then v * factor else v

/-- A stream of nonnegative `np.random.randint(low, high)` draws for the
flicker region corners. -/
def RandNatStream : Type := ℕ → ℕ → ℕ → ℕ

/-- `FlickerDegradation.apply` (flicker.py lines 40-74): compute the gating
interval, derive the brightness-factor range from `amplitude` and
`intensity`, draw a random rectangle, scale it by a random factor on gated
frames, clip to `[0, 255]`, cast to uint8 and increment the frame counter.
The random draws (`rand` for the region corners, `uniform` for the factor)
are parameters. -/
def flickerApply (p : FlickerParamsOut) (rand : RandNatStream) (uniform : ℚ → ℚ → ℚ)
    (data : Frame) (frame_counter : ℕ) : Frame × ℕ :=
  let h := data.shape.getD 0 0
  let w := data.shape.getD 1 0
  let should_flicker := flickerShouldFlicker p.frequency frame_counter
  let base_min := max (1/10) (1 - p.amplitude)
  let base_max := min 2 (1 + p.amplitude)
  let adjusted_min := 1 - (1 - base_min) * p.intensity
  let adjusted_max := 1 + (base_max - 1) * p.intensity
  let margin_x := (pyInt ((w : ℚ) * (3/10))).toNat
  let margin_y := (pyInt ((h : ℚ) * (3/10))).toNat
  let x1 := rand 0 0 (margin_x + 1)
  let y1 := rand 1 0 (margin_y + 1)
  let x2 := rand 2 (w - margin_x) w
  let y2 := rand 3 (h - margin_y) h
  let resultData :=
    if should_flicker then
      scaleRegion data.data w y1 y2 x1 x2 (uniform adjusted_min adjusted_max)
    else
      data.data
  (⟨data.shape, Dtype.uint8,
    resultData.map (fun v => ((pyInt (npClip v 0 255) : ℤ) : ℚ))⟩,
   frame_counter + 1)

/-- The shake frame counter after `n` calls to `apply` on the frame stream
`frames`, starting from a freshly constructed effect (`frame_counter = 0`,
shake.py line 13). -/
def shakeCounterAfter (p : ShakeParamsOut) (warpAffine : Frame → ℤ → ℤ → Frame)
    (addWeighted : Frame → ℚ → Frame → ℚ → Frame) (randints : ℕ → RandIntStream)
    (frames : ℕ → Frame) : ℕ → ℕ
  | 0 => 0
  | n + 1 =>
    (shakeApply p warpAffine addWeighted (randints n) (frames n)
      (shakeCounterAfter p warpAffine addWeighted randints frames n)).2

/-- The flicker frame counter after `n` calls to `apply` (flicker.py
line 12). -/
def flickerCounterAfter (p : FlickerParamsOut) (rands : ℕ → RandNatStream)
    (uniform : ℚ → ℚ → ℚ) (frames : ℕ → Frame) : ℕ → ℕ
  | 0 => 0
  | n + 1 =>
    (flickerApply p (rands n) uniform (frames n)
      (flickerCounterAfter p rands uniform frames n)).2

/-! ### The noise transform -/

/-- The random sources `NoiseDegradation.apply` draws from, one stream per
`np.random` call site. -/
structure NoiseRng where
  gaussian : ℕ → ℚ
  poisson : ℕ → ℕ
  salt_y : ℕ → ℕ
  salt_x : ℕ → ℕ
  pepper_y : ℕ → ℕ
  pepper_x : ℕ → ℕ

/-- `result[y, x] = v`: write one value into all three channels of pixel
`(y, x)` of an `H×W×3` frame stored flat (out-of-range writes are dropped,
matching coordinates that `np.random.randint` always keeps in range). -/
def setPixel (w : ℕ) (v : ℚ) (d : List ℚ) (y x : ℕ) : List ℚ :=
  (((d.set (3 * (y * w + x)) v).set (3 * (y * w + x) + 1) v).set
    (3 * (y * w + x) + 2) v)

/-- Write `count` pixels at the coordinates `(ys i, xs i)`. -/
def setPixels (w : ℕ) (v : ℚ) (ys xs : ℕ → ℕ) (count : ℕ) (d : List ℚ) : List ℚ :=
  (List.range count).foldl (fun acc i => setPixel w v acc (ys i) (xs i)) d

/-- `NoiseDegradation.apply` (noise.py lines 63-124): raise unless the input
is an `H×W×3` array; then add Gaussian noise, Poisson-resample, or scatter
salt/pepper pixels, and finally `np.clip(·, 0, 255).astype(np.uint8)`.
The parameters are read after validation (which always sets the keys the
chosen branch reads; the `getD` defaults are unreachable on validated
parameters). -/
def noiseApply (p : NoiseParams) (rng : NoiseRng) (data : Frame) :
    Except PyErr Frame :=
  if data.shape.length = 3 ∧ data.shape.getD 2 0 = 3 then
    let noise_type := p.noise_type.getD "高斯噪声"
    if noise_type = "高斯噪声" then
      Except.ok ⟨data.shape, Dtype.uint8,
        data.data.mapIdx fun i v =>
          ((pyInt (npClip (v + rng.gaussian i) 0 255) : ℤ) : ℚ)⟩
    else if noise_type = "泊松噪声" then
      let scale := p.intensity.getD 5
      Except.ok ⟨data.shape, Dtype.uint8,
        data.data.mapIdx fun i _ =>
          ((pyInt (npClip ((rng.poisson i : ℚ) / scale * 255) 0 255) : ℤ) : ℚ)⟩
    else if noise_type = "椒盐噪声" then
      let density := p.density.getD (1/20)
      let salt_ratio := p.salt_pepper_ratio.getD (1/2)
      let intensity := p.intensity.getD 1
      let height := data.shape.getD 0 0
      let width := data.shape.getD 1 0
      let total_pixels := height * width
      let total_noise_pixels := (pyInt ((total_pixels : ℚ) * density)).toNat
      let salt_pixels := (pyInt ((total_noise_pixels : ℚ) * salt_ratio)).toNat
      let pepper_pixels := total_noise_pixels - salt_pixels
      let withSalt := setPixels width (255 * intensity) rng.salt_y rng.salt_x
        salt_pixels data.data
      let withPepper := setPixels width (0 * intensity) rng.pepper_y rng.pepper_x
        pepper_pixels withSalt
      Except.ok ⟨data.shape, Dtype.uint8,
        withPepper.map (fun v => ((pyInt (npClip v 0 255) : ℤ) : ℚ))⟩
    else
      -- With an unrecognized type no `elif` branch runs, `result` stays
      -- `None`, and the final `np.clip(result, 0, 255)` raises — this path
      -- is unreachable after validation.
      Except.error (PyErr.typeError "clip不接受None输入")
  else
    Except.error (PyErr.valueError "输入数据必须是RGB格式的图像")

/-- `NoiseDegradation.process`: the base template with the default
preprocess/postprocess hooks (noise.py overrides neither). -/
def noiseProcess (p : NoiseParams) (rng : NoiseRng) (data : Frame) :
    Except PyErr Frame :=
  baseProcess defaultPreprocess (noiseApply p rng) defaultPostprocess data

/-! ### Registry, pipeline build and composite entry point -/

/-- Python dict values that flow through pipeline configuration. -/
inductive PVal where
  | str (s : String)
  | num (q : ℚ)
  | dict (entries : List (String × PVal))

/-- `DEGRADATION_CLASSES` (single_main.py lines 15-31): the effect catalogue,
mapping each effect name to its class path. -/
def DEGRADATION_CLASSES : List (String × String) :=
  [("blur", "degradations.common.blur.BlurDegradation"),
   ("noise", "degradations.common.noise.NoiseDegradation"),
   ("resample", "degradations.common.resample.ResampleDegradation"),
   ("compression", "degradations.common.compression.CompressionDegradation"),
   ("aliasing", "degradations.advanced.image.aliasing.AliasingDegradation"),
   ("scratch", "degradations.advanced.image.scratch.ScratchDegradation"),
   ("dirt", "degradations.advanced.image.dirt.DirtDegradation"),
   ("interlace", "degradations.advanced.image.interlace.InterlaceDegradation"),
   ("edge_artifact", "degradations.advanced.image.edge_artifact.EdgeArtifactDegradation"),
   ("motion_blur", "degradations.advanced.video.motion_blur.MotionBlurDegradation"),
   ("flicker", "degradations.advanced.video.flicker.FlickerDegradation"),
   ("shake", "degradations.advanced.video.shake.ShakeDegradation")]

/-- All registered effect names, in catalogue order. -/
def allEffectNames : List String :=
  DEGRADATION_CLASSES.map Prod.fst

/-- `load_degradation_class` (single_main.py lines 34-59): look the name up in
the catalogue, raising a `ValueError` that lists every known name when it is
absent.  The dynamic `importlib` step is external; resolution is modelled by
returning the registered class path. -/
def loadDegradationClass (degradation_type : String) : Except PyErr String :=
  match DEGRADATION_CLASSES.lookup degradation_type with
  | some path => Except.ok path
  | none => Except.error (PyErr.unknownType degradation_type allEffectNames)

/-- `SUPPORTED_DEGRADATIONS` of stage 3 (stage3_degradation.py lines 20-29). -/
def stage3Supported : List String :=
  ["aliasing", "scratch", "dirt", "interlace", "edge_artifact",
   "motion_blur", "flicker", "shake"]

/-- `Stage3Degradation.validate_params` (stage3_degradation.py lines 59-75):
require a `degradation_type`, check it against the supported-type table
(raising a `ValueError` that lists the table's keys otherwise), and require
the nested `params`, when present, to be a dict. -/
def stage3ValidateParams (degradation_type : Option String)
    (params : Option PVal) : Except PyErr String :=
  match degradation_type with
  | none => Except.error (PyErr.valueError "第三阶段必须指定degradation_type参数")
  | some t =>
    if t ∉ stage3Supported then
      Except.error (PyErr.unknownType t stage3Supported)
    else
      match params with
      | some (PVal.dict _) => Except.ok t
      | none => Except.ok t
      | some _ => Except.error (PyErr.valueError "params必须是字典类型")

/-- The params-unwrapping convention of `DegradationPipeline`
(composite_main.py lines 63-68 and 75-79): a dict whose single key is
`params` stands for its own `params` entry. -/
def unwrapNestedParams (p : PVal) : PVal :=
  match p with
  | PVal.dict entries =>
    if entries.length = 1 then
      match entries.lookup "params" with
      | some inner => inner
      | none => p
    else p
  | _ => p

/-- The instantiation step `deg_class(actual_params)` — running the resolved
class's `__init__`/`validate_params` on the given params.  Abstracted as a
parameter: each effect's validator is modelled separately above. -/
def Instantiate : Type := String → PVal → Except PyErr Unit

/-- The composite branch of `DegradationPipeline._validate_and_load_degradations`
(composite_main.py lines 55-72): check every sub-effect name against the
catalogue, unwrap its params, resolve and instantiate it; any raise is caught
and re-raised as the load-failure wrapper naming the config's type. -/
def pipelineLoadComposite (instantiate : Instantiate) (deg_type : String) :
    List (String × PVal) → Except PyErr (List (String × PVal))
  | [] => Except.ok []
  | (sub_type, sub_params) :: rest =>
    if (DEGRADATION_CLASSES.lookup sub_type).isNone then
      Except.error (PyErr.loadFailed deg_type
        (PyErr.unknownType sub_type allEffectNames))
    else
      let actual_params := unwrapNestedParams sub_params
      match loadDegradationClass sub_type with
      | Except.error e => Except.error (PyErr.loadFailed deg_type e)
      | Except.ok _ =>
        match instantiate sub_type actual_params with
        | Except.error e => Except.error (PyErr.loadFailed deg_type e)
        | Except.ok _ =>
          match pipelineLoadComposite instantiate deg_type rest with
          | Except.error e => Except.error e
          | Except.ok loaded => Except.ok ((sub_type, actual_params) :: loaded)

/-- One entry of `DegradationPipeline._validate_and_load_degradations`
(composite_main.py lines 39-86), with 1-indexed position `pos` for the error
messages: the entry must be a dict carrying a `name`; its params must be a
dict; `composite` entries are flattened one level; other names are resolved
through the catalogue and instantiated, any raise being wrapped into the
load-failure error naming the entry's type. -/
def pipelineLoadEntry (instantiate : Instantiate) (pos : ℕ) (config : PVal) :
    Except PyErr (List (String × PVal)) :=
  match config with
  | PVal.dict entries =>
    match entries.lookup "name" with
    | some (PVal.str deg_type) =>
      let deg_params := (entries.lookup "params").getD (PVal.dict [])
      match deg_params with
      | PVal.dict sub_entries =>
        if deg_type = "composite" then
          pipelineLoadComposite instantiate deg_type sub_entries
        else
          let actual_params := unwrapNestedParams deg_params
          match loadDegradationClass deg_type with
          | Except.error e => Except.error (PyErr.loadFailed deg_type e)
          | Except.ok _ =>
            match instantiate deg_type actual_params with
            | Except.error e => Except.error (PyErr.loadFailed deg_type e)
            | Except.ok _ => Except.ok [(deg_type, actual_params)]
      | _ => Except.error (PyErr.valueError (deg_type ++ "的参数必须是字典类型"))
    | some _ =>
      -- A non-string name is never in the catalogue: the lookup inside the
      -- `try` block raises and is wrapped, exactly as for an unknown string.
      Except.error (PyErr.loadFailed "composite"
        (PyErr.unknownType "非字符串名称" allEffectNames))
    | none => Except.error (PyErr.badEntry pos "缺少必要的name字段")
  | _ => Except.error (PyErr.badEntry pos "必须是字典类型")

/-- The loop of `_validate_and_load_degradations` over all entries
(composite_main.py lines 39-86), collecting the loaded effects in order. -/
def pipelineBuildAux (instantiate : Instantiate) :
    ℕ → List PVal → Except PyErr (List (String × PVal))
  | _, [] => Except.ok []
  | pos, config :: rest =>
    match pipelineLoadEntry instantiate pos config with
    | Except.error e => Except.error e
    | Except.ok loaded =>
      match pipelineBuildAux instantiate (pos + 1) rest with
      | Except.error e => Except.error e
      | Except.ok more => Except.ok (loaded ++ more)

/-- `DegradationPipeline.__init__` (composite_main.py lines 22-86): validate
and load every configured degradation, eagerly, before any frame is
processed.  (The `isinstance(configs, list)` check is vacuous on a `List`.) -/
def pipelineBuild (instantiate : Instantiate) (configs : List PVal) :
    Except PyErr (List (String × PVal)) :=
  pipelineBuildAux instantiate 1 configs

/-- `DegradationPipeline.apply` (composite_main.py lines 88-110): thread the
frame through every effect in order; a raise (or an empty result, which an
`Except`-valued effect cannot produce) halts the pipeline and is wrapped into
a runtime error carrying the 1-indexed position and the effect's name. -/
def pipelineApplyAux : ℕ → List (String × (Frame → Except PyErr Frame)) →
    Frame → Except PyErr Frame
  | _, [], data => Except.ok data
  | pos, (name, applyFn) :: rest, data =>
    match applyFn data with
    | Except.ok result => pipelineApplyAux (pos + 1) rest result
    | Except.error _ => Except.error (PyErr.execFailed pos name)

/-- `DegradationPipeline.apply` from the first effect. -/
def pipelineApply (degradations : List (String × (Frame → Except PyErr Frame)))
    (data : Frame) : Except PyErr Frame :=
  pipelineApplyAux 1 degradations data

/-- The configuration-collection step of `composite_main_demo`
(composite_main.py lines 217-224): keep the configs that were provided. -/
def compositeCollectConfigs (first second third : Option PVal) : List PVal :=
  [first, second, third].filterMap id

/-- The pipeline-build portion of `composite_main_demo` (composite_main.py
lines 217-227): fewer than two provided configs raise a `ValueError` before
the `DegradationPipeline` is constructed — and thus before any media is
loaded or any frame processed. -/
def compositeBuild (instantiate : Instantiate)
    (first second third : Option PVal) :
    Except PyErr (List (String × PVal)) :=
  let degradation_configs := compositeCollectConfigs first second third
  if degradation_configs.length < 2 then
    Except.error (PyErr.valueError "至少需要提供两个退化配置")
  else
    pipelineBuild instantiate degradation_configs

/-- Modelled from the spec (section 4.2 edge-case policies): the gating tick
the spec asserts, `max(1, round(30/frequency))` — written from the spec's
words for comparison with the code's `shakeFrameInterval` and
`flickerFrameInterval`. -/
def specGatingTick (frequency : ℚ) : ℤ :=
  max 1 (round ((30 : ℚ) / frequency))

/-! ### Helper lemmas -/

theorem pyInt_of_nonneg {q : ℚ} (h : 0 ≤ q) : pyInt q = ⌊q⌋ := by
  simp [pyInt, h]

theorem pyInt_intCast (z : ℤ) : pyInt (z : ℚ) = z := by
  rcases le_or_lt 0 z with hz | hz
  · rw [pyInt_of_nonneg (by exact_mod_cast hz), Int.floor_intCast]
  · have : ¬(0 : ℚ) ≤ (z : ℚ) := by exact_mod_cast not_le.mpr hz
    simp only [pyInt, this, if_false]
    rw [← Int.cast_neg, Int.floor_intCast]
    omega

theorem npClip_idem (x lo hi : ℚ) (h : lo ≤ hi) :
    npClip (npClip x lo hi) lo hi = npClip x lo hi := by
  unfold npClip
  simp only [min_def, max_def]
  split_ifs <;> linarith

theorem npClip_bounds (x lo hi : ℚ) (h : lo ≤ hi) :
    lo ≤ npClip x lo hi ∧ npClip x lo hi ≤ hi := by
  unfold npClip
  constructor
  · exact le_min h (le_max_left lo x)
  · exact min_le_left hi _

theorem clamp01_idem (a b x : ℚ) (h : a ≤ b) :
    max a (min b (max a (min b x))) = max a (min b x) := by
  simp only [min_def, max_def]
  split_ifs <;> linarith

theorem clamp01_bounds (x : ℚ) : 0 ≤ max 0 (min 1 x) ∧ max 0 (min 1 x) ≤ 1 := by
  constructor
  · exact le_max_left 0 _
  · exact max_le zero_le_one (min_le_left 1 x)

theorem max_self_right (a b : ℚ) : max a (max a b) = max a b := by
  rw [← max_assoc, max_self]

theorem blurKernelNormalize_eq (k : ℤ) :
    blurKernelNormalize k =
      if (max 1 k) % 2 = 1 then max 1 k else max 1 k + 1 := rfl

theorem blurKernelNormalize_odd (k : ℤ) : blurKernelNormalize k % 2 = 1 := by
  rw [blurKernelNormalize_eq]
  have h1 : 1 ≤ max 1 k := le_max_left 1 k
  split_ifs with h2 <;> omega

theorem blurKernelNormalize_pos (k : ℤ) : 1 ≤ blurKernelNormalize k := by
  rw [blurKernelNormalize_eq]
  have h1 : 1 ≤ max 1 k := le_max_left 1 k
  split_ifs with h2 <;> omega

theorem blurKernelNormalize_fixed {k : ℤ} (hodd : k % 2 = 1) (hpos : 1 ≤ k) :
    blurKernelNormalize k = k := by
  rw [blurKernelNormalize_eq, max_eq_right hpos, if_pos hodd]

theorem shakeValidateRest_ok {p : ShakeParams} {a b : ℤ} {out : ShakeParamsOut}
    (h : shakeValidateRest p a b = Except.ok out) :
    out.max_offset = a ∧ out.displacement = b := by
  simp only [shakeValidateRest] at h
  by_cases h1 : ¬(0 < p.mix_weight.getD (1/2) ∧ p.mix_weight.getD (1/2) < 1)
  · rw [if_pos h1] at h
    exact absurd h (by simp)
  · rw [if_neg h1] at h
    by_cases h2 : p.frequency.getD 0 < 0
    · rw [if_pos h2] at h
      exact absurd h (by simp)
    · rw [if_neg h2] at h
      injection h with h3
      subst h3
      exact ⟨rfl, rfl⟩

theorem stage1Apply_ok_iff {E : Type} (b r n c : Frame → Except E Frame)
    (x y : Frame) :
    stage1Apply b r n c x = Except.ok y ↔
      ∃ u v w, b x = Except.ok u ∧ r u = Except.ok v ∧ n v = Except.ok w ∧
        c w = Except.ok y := by
  constructor
  · intro h
    cases hb : b x with
    | error e => simp [stage1Apply, hb] at h
    | ok u =>
      cases hr : r u with
      | error e => simp [stage1Apply, hb, hr] at h
      | ok v =>
        cases hn : n v with
        | error e => simp [stage1Apply, hb, hr, hn] at h
        | ok w =>
          cases hc : c w with
          | error e => simp [stage1Apply, hb, hr, hn, hc] at h
          | ok z =>
            simp only [stage1Apply, hb, hr, hn, hc, Except.ok.injEq] at h
            exact ⟨u, v, w, rfl, hr, hn, by rw [hc, h]⟩
  · rintro ⟨u, v, w, hb, hr, hn, hc⟩
    simp [stage1Apply, hb, hr, hn, hc]

theorem stage1Apply_error_propagates {E : Type}
    (b r n c : Frame → Except E Frame) (x : Frame) :
    (∀ e, b x = Except.error e → stage1Apply b r n c x = Except.error e) ∧
    (∀ u e, b x = Except.ok u → r u = Except.error e →
      stage1Apply b r n c x = Except.error e) ∧
    (∀ u v e, b x = Except.ok u → r u = Except.ok v → n v = Except.error e →
      stage1Apply b r n c x = Except.error e) ∧
    (∀ u v w e, b x = Except.ok u → r u = Except.ok v → n v = Except.ok w →
      c w = Except.error e → stage1Apply b r n c x = Except.error e) := by
  refine ⟨?_, ?_, ?_, ?_⟩
  · intro e hb; simp [stage1Apply, hb]
  · intro u e hb hr; simp [stage1Apply, hb, hr]
  · intro u v e hb hr hn; simp [stage1Apply, hb, hr, hn]
  · intro u v w e hb hr hn hc; simp [stage1Apply, hb, hr, hn, hc]

theorem blur_validate_idem (p : BlurParams) :
    blurValidateParams (blurValidateParams p) = blurValidateParams p := by
  rcases p with ⟨obt, oks, osig⟩
  have hker : ∀ k : ℤ, blurKernelNormalize (blurKernelNormalize k) =
      blurKernelNormalize k := fun k =>
    blurKernelNormalize_fixed (blurKernelNormalize_odd k)
      (blurKernelNormalize_pos k)
  simp only [blurValidateParams]
  by_cases hbt : obt.getD "高斯模糊" = "高斯模糊" <;>
    cases oks <;>
      simp [hbt, hker, max_self_right, blurKernelNormalize_fixed]

theorem noise_validate_idem_non_salt (p q : NoiseParams)
    (hp : noiseValidateParams p = Except.ok q)
    (hq : q.noise_type ≠ some "椒盐噪声") :
    noiseValidateParams q = Except.ok q := by
  simp only [noiseValidateParams] at hp
  split_ifs at hp with h1 h2
  · -- the salt-pepper branch: contradicts `hq`
    injection hp with h
    subst h
    exact absurd (by simp [h2]) hq
  · injection hp with h
    subst h
    simp only [noiseValidateParams, Option.getD_some]
    rw [if_neg (not_not_intro h1), if_neg h2]
    simp
    exact npClip_idem _ _ _ (by norm_num)

theorem noise_validate_salt_fields (p q r : NoiseParams)
    (hp : noiseValidateParams p = Except.ok q)
    (hq : noiseValidateParams q = Except.ok r) :
    r.noise_type = q.noise_type ∧ r.intensity = q.intensity ∧
      r.salt_pepper_ratio = q.salt_pepper_ratio := by
  have hp' := hp
  simp only [noiseValidateParams] at hp'
  split_ifs at hp' with h1 h2
  · injection hp' with h
    subst h
    simp only [noiseValidateParams, Option.getD_some] at hq
    rw [if_neg (not_not_intro h1), if_pos h2] at hq
    injection hq with h
    subst h
    refine ⟨by simp, ?_, ?_⟩
    · simp
      exact npClip_idem _ _ _ (by norm_num)
    · simp
      exact npClip_idem _ _ _ (by norm_num)
  · have hqt : q.noise_type ≠ some "椒盐噪声" := by
      injection hp' with h
      subst h
      simp [h2]
    rw [noise_validate_idem_non_salt p q hp hqt] at hq
    injection hq with h
    subst h
    exact ⟨rfl, rfl, rfl⟩

theorem validateInputData_ok (f : Frame)
    (hlen : f.shape.length = 3 ∨ f.shape.length = 4) :
    validateInputData f = Except.ok () := by
  have hdt : f.dtype = Dtype.uint8 ∨ f.dtype = Dtype.float32 ∨
      f.dtype = Dtype.float64 := by
    cases f.dtype <;> simp
  unfold validateInputData
  rw [if_pos hlen, if_pos hdt]

theorem baseProcess_ok_of_apply_ok (pre : Frame → Frame)
    (applyFn : Frame → Except PyErr Frame) (post : Frame → Frame) (f A : Frame)
    (hv : validateInputData f = Except.ok ())
    (ha : applyFn (pre f) = Except.ok A) :
    baseProcess pre applyFn post f = Except.ok (post A) := by
  simp [baseProcess, hv, ha]

theorem baseProcess_ok_dtype (pre : Frame → Frame)
    (applyFn : Frame → Except PyErr Frame) (f g : Frame)
    (h : baseProcess pre applyFn defaultPostprocess f = Except.ok g) :
    g.dtype = Dtype.uint8 := by
  unfold baseProcess at h
  cases hv : validateInputData f with
  | error e => rw [hv] at h; exact absurd h (by simp)
  | ok u =>
    rw [hv] at h
    cases ha : applyFn (pre f) with
    | error e => simp only [ha] at h; exact absurd h (by simp)
    | ok A =>
      simp only [ha] at h
      injection h with h2
      rw [← h2]
      rfl

theorem noiseApply_rank3_ok (p : NoiseParams) (nt : String)
    (hpt : p.noise_type = some nt)
    (hmem : nt = "高斯噪声" ∨ nt = "泊松噪声" ∨ nt = "椒盐噪声")
    (rng : NoiseRng) (f : Frame) (hlen : f.shape.length = 3)
    (hget : f.shape.getD 2 0 = 3) :
    ∃ d, noiseApply p rng f = Except.ok ⟨f.shape, Dtype.uint8, d⟩ := by
  simp only [noiseApply, hpt, Option.getD_some]
  rw [if_pos ⟨hlen, hget⟩]
  rcases hmem with h | h | h
  · rw [if_pos h]
    exact ⟨_, rfl⟩
  · rw [if_neg (by rw [h]; decide), if_pos h]
    exact ⟨_, rfl⟩
  · rw [if_neg (by rw [h]; decide), if_neg (by rw [h]; decide), if_pos h]
    exact ⟨_, rfl⟩

/-! ### The claims -/

/-- C1.  For every input frame, Stage 1 (and Stage 2) composite `apply` runs
its four sub-effects strictly in the order blur → resample → noise →
compression, feeding each sub-effect's output to the next: it succeeds with
`y` exactly when the chained sub-effect runs do.  When a sub-effect raises,
the stage aborts (later sub-effects never run) — but, amending the claim, the
sub-effect's exception propagates *unchanged*: no wrapper naming the
sub-effect or its position is added at the stage level.  The position-naming
wrapper exists only one level up, in `DegradationPipeline.apply` (last
conjunct). -/
theorem stage_apply_order_and_raw_propagation {E : Type}
    (b r n c : Frame → Except E Frame) (x y : Frame) :
    (stage1Apply b r n c x = Except.ok y ↔
      ∃ u v w, b x = Except.ok u ∧ r u = Except.ok v ∧ n v = Except.ok w ∧
        c w = Except.ok y) ∧
    (∀ e, b x = Except.error e → stage1Apply b r n c x = Except.error e) ∧
    (∀ u e, b x = Except.ok u → r u = Except.error e →
      stage1Apply b r n c x = Except.error e) ∧
    (∀ u v e, b x = Except.ok u → r u = Except.ok v → n v = Except.error e →
      stage1Apply b r n c x = Except.error e) ∧
    (∀ u v w e, b x = Except.ok u → r u = Except.ok v → n v = Except.ok w →
      c w = Except.error e → stage1Apply b r n c x = Except.error e) ∧
    (stage2Apply b r n c x = stage1Apply b r n c x) ∧
    (∀ (name : String) (proc : Frame → Except PyErr Frame) (e : PyErr),
      proc x = Except.error e →
      pipelineApply [(name, proc)] x = Except.error (PyErr.execFailed 1 name)) := by
  obtain ⟨h1, h2, h3, h4⟩ := stage1Apply_error_propagates b r n c x
  refine ⟨stage1Apply_ok_iff b r n c x y, h1, h2, h3, h4, rfl, ?_⟩
  intro name proc e hp
  simp [pipelineApply, pipelineApplyAux, hp]

/-- Witness for C1: with a noise sub-effect that raises, the stage of
identity sub-effects propagates exactly that error. -/
theorem stage_apply_order_and_raw_propagation_witness :
    stage1Apply (E := String) Except.ok Except.ok (fun _ => Except.error "噪声失败")
      Except.ok ⟨[1, 1, 3], Dtype.uint8, [0, 0, 0]⟩ = Except.error "噪声失败" := by
  exact (stage_apply_order_and_raw_propagation (E := String) Except.ok Except.ok
    (fun _ => Except.error "噪声失败") Except.ok
    ⟨[1, 1, 3], Dtype.uint8, [0, 0, 0]⟩ ⟨[1, 1, 3], Dtype.uint8, [0, 0, 0]⟩).2.2.2.1
    ⟨[1, 1, 3], Dtype.uint8, [0, 0, 0]⟩ ⟨[1, 1, 3], Dtype.uint8, [0, 0, 0]⟩
    "噪声失败" rfl rfl rfl

/-- Counterexample for C1 as stated: when the blur sub-effect raises
"模糊核非法", the stage propagates the very same error value — not a wrapped
error identifying the failing sub-effect and its position. -/
theorem stage_apply_error_not_wrapped_cex :
    stage1Apply (E := String) (fun _ => Except.error "模糊核非法") Except.ok
      Except.ok Except.ok ⟨[1, 1, 3], Dtype.uint8, [0, 0, 0]⟩ =
      Except.error "模糊核非法" := rfl

/-- C2 (amended).  Whenever any effect's `process()` succeeds through the
default postprocess hook (which all 12 effects inherit), the output has 8-bit
unsigned dtype; and for every valid `H×W×3` uint8 frame the noise effect's
`process()` succeeds with identical shape and uint8 dtype.  The claim's
rank-4 case fails: the noise effect's `apply` raises on any non-rank-3
input (see the counterexample). -/
theorem process_output_uint8_and_noise_shape :
    (∀ (pre : Frame → Frame) (applyFn : Frame → Except PyErr Frame)
        (f g : Frame),
      baseProcess pre applyFn defaultPostprocess f = Except.ok g →
      g.dtype = Dtype.uint8) ∧
    (∀ (praw p : NoiseParams) (rng : NoiseRng) (h w : ℕ) (f : Frame),
      noiseValidateParams praw = Except.ok p → f.shape = [h, w, 3] →
      f.dtype = Dtype.uint8 →
      ∃ g, noiseProcess p rng f = Except.ok g ∧ g.shape = f.shape ∧
        g.dtype = Dtype.uint8) := by
  constructor
  · exact baseProcess_ok_dtype
  · intro praw p rng h w f hval hshape _
    have hlen : f.shape.length = 3 := by rw [hshape]; rfl
    have hget : f.shape.getD 2 0 = 3 := by rw [hshape]; rfl
    have htype : ∃ nt, p.noise_type = some nt ∧
        (nt = "高斯噪声" ∨ nt = "泊松噪声" ∨ nt = "椒盐噪声") := by
      simp only [noiseValidateParams] at hval
      split_ifs at hval with h1 h2
      · injection hval with hq
        subst hq
        exact ⟨_, rfl, Or.inr (Or.inr h2)⟩
      · injection hval with hq
        subst hq
        refine ⟨_, rfl, ?_⟩
        simpa using h1
    obtain ⟨nt, hpt, hmem⟩ := htype
    obtain ⟨d, happly⟩ := noiseApply_rank3_ok p nt hpt hmem rng f hlen hget
    refine ⟨defaultPostprocess ⟨f.shape, Dtype.uint8, d⟩, ?_, rfl, rfl⟩
    exact baseProcess_ok_of_apply_ok defaultPreprocess (noiseApply p rng)
      defaultPostprocess f ⟨f.shape, Dtype.uint8, d⟩
      (validateInputData_ok f (Or.inl hlen)) happly

/-- Witness for C2: a 1×1×3 uint8 frame through gaussian noise. -/
theorem process_output_uint8_and_noise_shape_witness :
    ∃ g, noiseProcess ⟨some "高斯噪声", some 5, none, none⟩
      ⟨fun _ => 0, fun _ => 0, fun _ => 0, fun _ => 0, fun _ => 0, fun _ => 0⟩
      ⟨[1, 1, 3], Dtype.uint8, [10, 20, 30]⟩ = Except.ok g ∧
      g.shape = Frame.shape ⟨[1, 1, 3], Dtype.uint8, [10, 20, 30]⟩ ∧
      g.dtype = Dtype.uint8 :=
  process_output_uint8_and_noise_shape.2 ⟨none, none, none, none⟩
    ⟨some "高斯噪声", some 5, none, none⟩
    ⟨fun _ => 0, fun _ => 0, fun _ => 0, fun _ => 0, fun _ => 0, fun _ => 0⟩
    1 1 ⟨[1, 1, 3], Dtype.uint8, [10, 20, 30]⟩
    (by norm_num [noiseValidateParams, npClip, min_def, max_def]
        decide)
    rfl rfl

/-- Counterexample for C2 as stated: a valid rank-4 uint8 frame (which the
base contract accepts) makes the noise effect's `process()` raise — its
`apply` rejects every non-`H×W×3` input — instead of returning a frame. -/
theorem noise_process_raises_on_rank4_cex :
    noiseProcess ⟨some "高斯噪声", some 5, none, none⟩
      ⟨fun _ => 0, fun _ => 0, fun _ => 0, fun _ => 0, fun _ => 0, fun _ => 0⟩
      ⟨[1, 1, 1, 3], Dtype.uint8, [0, 0, 0]⟩ =
      Except.error (PyErr.valueError "输入数据必须是RGB格式的图像") := by
  simp [noiseProcess, baseProcess, validateInputData, defaultPreprocess,
    noiseApply]

/-- C7.  Building a composite pipeline with exactly one provided
configuration raises the minimum-stage `ValueError` at build time — before
`DegradationPipeline` is even constructed, hence before any frame processing
— while any two or three provided configurations that load successfully
build the pipeline. -/
theorem composite_min_stage_policy :
    (∀ (instantiate : Instantiate) (c1 c2 c3 : Option PVal),
      (compositeCollectConfigs c1 c2 c3).length = 1 →
      compositeBuild instantiate c1 c2 c3 =
        Except.error (PyErr.valueError "至少需要提供两个退化配置")) ∧
    (∀ (instantiate : Instantiate) (c1 c2 c3 : Option PVal) r,
      2 ≤ (compositeCollectConfigs c1 c2 c3).length →
      pipelineBuild instantiate (compositeCollectConfigs c1 c2 c3) =
        Except.ok r →
      compositeBuild instantiate c1 c2 c3 = Except.ok r) := by
  constructor
  · intro instantiate c1 c2 c3 hlen
    simp only [compositeBuild]
    rw [if_pos (by omega)]
  · intro instantiate c1 c2 c3 r hlen hok
    simp only [compositeBuild]
    rw [if_neg (by omega), hok]

/-- Witness for C7: one config raises; the same config plus a second one
builds. -/
theorem composite_min_stage_policy_witness :
    compositeBuild (fun _ _ => Except.ok ())
      (some (PVal.dict [("name", PVal.str "blur")])) none none =
      Except.error (PyErr.valueError "至少需要提供两个退化配置") ∧
    compositeBuild (fun _ _ => Except.ok ())
      (some (PVal.dict [("name", PVal.str "blur")]))
      (some (PVal.dict [("name", PVal.str "noise")])) none =
      Except.ok [("blur", PVal.dict []), ("noise", PVal.dict [])] := by
  constructor
  · exact composite_min_stage_policy.1 (fun _ _ => Except.ok ())
      (some (PVal.dict [("name", PVal.str "blur")])) none none rfl
  · exact composite_min_stage_policy.2 (fun _ _ => Except.ok ())
      (some (PVal.dict [("name", PVal.str "blur")]))
      (some (PVal.dict [("name", PVal.str "noise")])) none
      [("blur", PVal.dict []), ("noise", PVal.dict [])]
      (by decide) rfl

/-- C8.  Resolving an effect name not in the catalogue — through
`load_degradation_class` at pipeline build, or through stage-3 validation —
raises an error value that carries the full list of valid names; every
catalogued name resolves to its registered constructor path, and every
stage-3-supported name validates. -/
theorem resolve_effect_names :
    (∀ name, DEGRADATION_CLASSES.lookup name = none →
      loadDegradationClass name =
        Except.error (PyErr.unknownType name allEffectNames)) ∧
    (∀ name path, DEGRADATION_CLASSES.lookup name = some path →
      loadDegradationClass name = Except.ok path) ∧
    allEffectNames = ["blur", "noise", "resample", "compression", "aliasing",
      "scratch", "dirt", "interlace", "edge_artifact", "motion_blur",
      "flicker", "shake"] ∧
    (∀ t, t ∉ stage3Supported →
      stage3ValidateParams (some t) none =
        Except.error (PyErr.unknownType t stage3Supported)) ∧
    (∀ t, t ∈ stage3Supported →
      stage3ValidateParams (some t) none = Except.ok t) := by
  refine ⟨?_, ?_, rfl, ?_, ?_⟩
  · intro name h
    simp [loadDegradationClass, h]
  · intro name path h
    simp [loadDegradationClass, h]
  · intro t ht
    simp only [stage3ValidateParams]
    rw [if_pos ht]
  · intro t ht
    simp only [stage3ValidateParams]
    rw [if_neg (not_not_intro ht)]

/-- Witness for C8: an unknown name is rejected with the catalogue attached;
`blur` and `shake` resolve. -/
theorem resolve_effect_names_witness :
    loadDegradationClass "not_a_real_effect" =
      Except.error (PyErr.unknownType "not_a_real_effect" allEffectNames) ∧
    loadDegradationClass "blur" =
      Except.ok "degradations.common.blur.BlurDegradation" ∧
    stage3ValidateParams (some "shake") none = Except.ok "shake" :=
  ⟨resolve_effect_names.1 "not_a_real_effect" rfl,
   resolve_effect_names.2.1 "blur" "degradations.common.blur.BlurDegradation" rfl,
   resolve_effect_names.2.2.2.2 "shake" (by decide)⟩

/-- C3 (amended).  Parameter validation is idempotent for the blur effect on
every input, and for the noise effect on every accepted input *except* the
salt-pepper `density` parameter: re-validating already-normalized gaussian or
poisson parameters reproduces them exactly, and re-validating normalized
salt-pepper parameters preserves `noise_type`, `intensity` and
`salt_pepper_ratio` — but not `density`, which every run divides by 100 again
(treating it as a fresh percentage) before re-clamping into `[0.01, 0.2]`. -/
theorem validate_params_idempotence_amended :
    (∀ p : BlurParams,
      blurValidateParams (blurValidateParams p) = blurValidateParams p) ∧
    (∀ p q : NoiseParams, noiseValidateParams p = Except.ok q →
      q.noise_type ≠ some "椒盐噪声" → noiseValidateParams q = Except.ok q) ∧
    (∀ p q r : NoiseParams, noiseValidateParams p = Except.ok q →
      noiseValidateParams q = Except.ok r →
      r.noise_type = q.noise_type ∧ r.intensity = q.intensity ∧
        r.salt_pepper_ratio = q.salt_pepper_ratio) :=
  ⟨blur_validate_idem, noise_validate_idem_non_salt, noise_validate_salt_fields⟩

/-- Witness for C3: normalized gaussian noise parameters are a fixed point of
validation. -/
theorem validate_params_idempotence_amended_witness :
    noiseValidateParams ⟨some "高斯噪声", some 5, none, none⟩ =
      Except.ok ⟨some "高斯噪声", some 5, none, none⟩ :=
  validate_params_idempotence_amended.2.1 ⟨none, none, none, none⟩
    ⟨some "高斯噪声", some 5, none, none⟩
    (by norm_num [noiseValidateParams, npClip, min_def, max_def]
        decide)
    (by simp only [ne_eq, Option.some.injEq]
        decide)

/-- Counterexample for C3 as stated: validating the already-normalized
salt-pepper parameters a second time changes `density` from `0.05` to `0.01`
(the second run divides the normalized 0.05 by 100 and clamps 0.0005 up to
the lower bound 0.01), so validation is not idempotent. -/
theorem salt_density_not_idempotent_cex :
    noiseValidateParams ⟨some "椒盐噪声", none, some 5, none⟩ =
      Except.ok ⟨some "椒盐噪声", some 1, some (1/20), some (1/2)⟩ ∧
    noiseValidateParams ⟨some "椒盐噪声", some 1, some (1/20), some (1/2)⟩ =
      Except.ok ⟨some "椒盐噪声", some 1, some (1/100), some (1/2)⟩ ∧
    (⟨some "椒盐噪声", some 1, some (1/100), some (1/2)⟩ : NoiseParams) ≠
      ⟨some "椒盐噪声", some 1, some (1/20), some (1/2)⟩ := by
  refine ⟨?_, ?_, ?_⟩
  · norm_num [noiseValidateParams, npClip, min_def, max_def]
  · norm_num [noiseValidateParams, npClip, min_def, max_def]
  · simp only [ne_eq, NoiseParams.mk.injEq, Option.some.injEq]
    norm_num

/-- C4 (amended).  For every integer `kernel_size` input, the blur and
edge-artifact effects end validation with an odd kernel size that is at least
1.  The motion-blur effect only makes the kernel size odd: it never forces it
positive, so oddness holds for every input but `kernel_size ≥ 1` is only
guaranteed for non-negative inputs (a negative odd input is kept as-is). -/
theorem kernel_size_normalization_amended : ∀ ks : ℤ,
    (blurValidateParams ⟨none, some ks, none⟩).kernel_size.getD 0 % 2 = 1 ∧
    1 ≤ (blurValidateParams ⟨none, some ks, none⟩).kernel_size.getD 0 ∧
    (edgeArtifactValidateParams ⟨none, some (ks : ℚ)⟩).kernel_size % 2 = 1 ∧
    1 ≤ (edgeArtifactValidateParams ⟨none, some (ks : ℚ)⟩).kernel_size ∧
    (motionBlurValidateParams ⟨some ks, none⟩).kernel_size % 2 = 1 ∧
    (0 ≤ ks → 1 ≤ (motionBlurValidateParams ⟨some ks, none⟩).kernel_size) := by
  intro ks
  have hblur : (blurValidateParams ⟨none, some ks, none⟩).kernel_size =
      some (blurKernelNormalize ks) := by
    simp [blurValidateParams]
  have hedge : (edgeArtifactValidateParams ⟨none, some (ks : ℚ)⟩).kernel_size =
      (if (if ks ≤ 0 then 3 else ks) % 2 = 0 then (if ks ≤ 0 then 3 else ks) + 1
       else (if ks ≤ 0 then 3 else ks)) := by
    simp [edgeArtifactValidateParams, pyInt_intCast]
  have hmotion : (motionBlurValidateParams ⟨some ks, none⟩).kernel_size =
      (if ks % 2 = 1 then ks else ks + 1) := by
    simp [motionBlurValidateParams]
  refine ⟨?_, ?_, ?_, ?_, ?_, ?_⟩
  · rw [hblur, Option.getD_some]
    exact blurKernelNormalize_odd ks
  · rw [hblur, Option.getD_some]
    exact blurKernelNormalize_pos ks
  · rw [hedge]
    split_ifs <;> omega
  · rw [hedge]
    split_ifs <;> omega
  · rw [hmotion]
    split_ifs with h <;> omega
  · intro h0
    rw [hmotion]
    split_ifs with h <;> omega

/-- Witness for C4: the even input 4 becomes 5 for blur, and stays positive
for motion blur. -/
theorem kernel_size_normalization_amended_witness :
    (blurValidateParams ⟨none, some 4, none⟩).kernel_size.getD 0 % 2 = 1 ∧
    1 ≤ (motionBlurValidateParams ⟨some 4, none⟩).kernel_size :=
  ⟨(kernel_size_normalization_amended 4).1,
   (kernel_size_normalization_amended 4).2.2.2.2.2 (by norm_num)⟩

/-- Counterexample for C4 as stated: motion blur keeps the negative odd
input -3 (Python `-3 % 2 == 1`), so its validated kernel size is not ≥ 1. -/
theorem motion_blur_kernel_not_positive_cex :
    (motionBlurValidateParams ⟨some (-3), none⟩).kernel_size = -3 ∧
    ¬(1 ≤ (motionBlurValidateParams ⟨some (-3), none⟩).kernel_size) := by
  have h : (motionBlurValidateParams ⟨some (-3), none⟩).kernel_size = -3 := by
    simp [motionBlurValidateParams]
  exact ⟨h, by rw [h]; norm_num⟩

/-- C5 (amended).  The fractional parameters `intensity` (interlace, flicker,
noise), `darkness` (dirt) and `strength` (edge artifact) are clamped into
their documented bounds by validation for every out-of-range numeric input.
`mix_weight` (shake) is the exception the claim misses: it is range-checked,
not clamped, and any value outside the open interval `(0, 1)` raises a
`ValueError`. -/
theorem fractional_params_clamped_amended :
    (∀ q : ℚ, 0 ≤ (interlaceValidateParams ⟨some q⟩).intensity ∧
      (interlaceValidateParams ⟨some q⟩).intensity ≤ 1) ∧
    (∀ q : ℚ, 0 ≤ (edgeArtifactValidateParams ⟨some q, none⟩).strength ∧
      (edgeArtifactValidateParams ⟨some q, none⟩).strength ≤ 1) ∧
    (∀ (q : ℚ) (out : DirtParamsOut),
      dirtValidateParams ⟨none, none, some q, none, none⟩ = Except.ok out →
      0 ≤ out.darkness ∧ out.darkness ≤ 1) ∧
    (∀ (q : ℚ) (out : FlickerParamsOut),
      flickerValidateParams ⟨none, some q, none, none⟩ = Except.ok out →
      0 ≤ out.intensity ∧ out.intensity ≤ 1) ∧
    (∀ p q : NoiseParams, noiseValidateParams p = Except.ok q →
      ∃ i, q.intensity = some i ∧ 1/100 ≤ i ∧ i ≤ 30) ∧
    (∀ mw : ℚ, ¬(0 < mw ∧ mw < 1) →
      shakeValidateParams ⟨none, some mw, none, none⟩ =
        Except.error (PyErr.valueError "mix_weight必须在01开区间范围内")) := by
  refine ⟨?_, ?_, ?_, ?_, ?_, ?_⟩
  · intro q
    have h : (interlaceValidateParams ⟨some q⟩).intensity = npClip q 0 1 := by
      simp [interlaceValidateParams]
    rw [h]
    exact npClip_bounds q 0 1 (by norm_num)
  · intro q
    have h : (edgeArtifactValidateParams ⟨some q, none⟩).strength =
        max 0 (min 1 q) := by
      simp [edgeArtifactValidateParams]
    rw [h]
    exact clamp01_bounds q
  · intro q out hok
    norm_num [dirtValidateParams, pyInt, max_def, min_def] at hok
    subst hok
    dsimp only
    constructor <;> split_ifs <;> linarith
  · intro q out hok
    norm_num [flickerValidateParams, max_def, min_def] at hok
    subst hok
    dsimp only
    constructor <;> split_ifs <;> linarith
  · intro p q hok
    simp only [noiseValidateParams] at hok
    split_ifs at hok with h1 h2
    · injection hok with h
      subst h
      refine ⟨_, rfl, ?_⟩
      have := npClip_bounds (p.intensity.getD 1) (1/100) 1 (by norm_num)
      constructor
      · exact this.1
      · linarith [this.2]
    · injection hok with h
      subst h
      exact ⟨_, rfl, npClip_bounds (p.intensity.getD 5) (1/100) 30 (by norm_num)⟩
  · intro mw hmw
    have h5 : pyInt ((5 : ℚ)) = 5 := by norm_num [pyInt]
    simp only [shakeValidateParams, shakeValidateRest, Option.getD_none,
      Option.getD_some, h5]
    rw [if_neg (by norm_num : ¬(5 : ℤ) < 1), if_pos hmw]

/-- Witness for C5: `darkness = -5` is clamped to 0 by dirt validation, and
`mix_weight = 500` makes shake validation raise. -/
theorem fractional_params_clamped_amended_witness :
    (0 ≤ (DirtParamsOut.mk 5 [5, 20] 0 5 (0, 0, 0)).darkness ∧
      (DirtParamsOut.mk 5 [5, 20] 0 5 (0, 0, 0)).darkness ≤ 1) ∧
    shakeValidateParams ⟨none, some 500, none, none⟩ =
      Except.error (PyErr.valueError "mix_weight必须在01开区间范围内") := by
  constructor
  · exact fractional_params_clamped_amended.2.2.1 (-5)
      (DirtParamsOut.mk 5 [5, 20] 0 5 (0, 0, 0))
      (by norm_num [dirtValidateParams, pyInt, max_def, min_def])
  · exact fractional_params_clamped_amended.2.2.2.2.2 500 (by norm_num)

/-- Counterexample for C5 as stated: `mix_weight = 500` is not clamped into
the documented bound — shake validation raises a `ValueError` for it, even
though 500 is a numeric out-of-range value, not a literal/enum mismatch. -/
theorem mix_weight_raises_not_clamped_cex :
    shakeValidateParams ⟨none, some 500, none, none⟩ =
      Except.error (PyErr.valueError "mix_weight必须在01开区间范围内") := by
  have h5 : pyInt ((5 : ℚ)) = 5 := by norm_num [pyInt]
  simp only [shakeValidateParams, shakeValidateRest, Option.getD_none,
    Option.getD_some, h5]
  rw [if_neg (by norm_num : ¬(5 : ℤ) < 1),
    if_pos (by norm_num : ¬((0 : ℚ) < 500 ∧ (500 : ℚ) < 1))]

/-- C6 (amended).  For every frequency `f > 0` and every counter value, shake
(when gated) and flicker fire exactly on the frames whose counter is
divisible by the gating tick — but the tick is computed with Python `int()`
*truncation*, not rounding: `max(1, ⌊30/f⌋)` for shake, and
`max(1, ⌊30/(f + 10⁻⁶)⌋)` for flicker (whose code adds an epsilon to the
divisor).  On non-tick frames shake returns its input unchanged. -/
theorem frequency_gating_amended : ∀ f : ℚ, 0 < f → ∀ c : ℕ,
    (shakeShouldJitter f c = true ↔ (c : ℤ) % max 1 ⌊(30 : ℚ) / f⌋ = 0) ∧
    (flickerShouldFlicker f c = true ↔
      (c : ℤ) % max 1 ⌊(30 : ℚ) / (f + 1/1000000)⌋ = 0) ∧
    shakeFrameInterval f = max 1 ⌊(30 : ℚ) / f⌋ ∧
    flickerFrameInterval f = max 1 ⌊(30 : ℚ) / (f + 1/1000000)⌋ ∧
    (∀ p warpAffine addWeighted (randint : RandIntStream) data,
      p.frequency = f → shakeShouldJitter f c = false →
      (shakeApply p warpAffine addWeighted randint data c).1 = data) := by
  intro f hf c
  have hsi : shakeFrameInterval f = max 1 ⌊(30 : ℚ) / f⌋ := by
    rw [shakeFrameInterval,
      pyInt_of_nonneg (le_of_lt (div_pos (by norm_num) hf))]
  have hfi : flickerFrameInterval f = max 1 ⌊(30 : ℚ) / (f + 1/1000000)⌋ := by
    rw [flickerFrameInterval,
      pyInt_of_nonneg (le_of_lt (div_pos (by norm_num) (by linarith)))]
  refine ⟨?_, ?_, hsi, hfi, ?_⟩
  · rw [shakeShouldJitter, if_pos hf, hsi]
    exact decide_eq_true_iff
  · rw [flickerShouldFlicker, hfi]
    exact decide_eq_true_iff
  · intro p warpAffine addWeighted randint data hpf hfalse
    simp [shakeApply, hpf, hfalse]

/-- Witness for C6 at frequency 4 and counter 7. -/
theorem frequency_gating_amended_witness :
    shakeFrameInterval 4 = max 1 ⌊(30 : ℚ) / 4⌋ ∧
    (shakeShouldJitter 4 7 = true ↔ (7 : ℤ) % max 1 ⌊(30 : ℚ) / 4⌋ = 0) :=
  ⟨(frequency_gating_amended 4 (by norm_num) 7).2.2.1,
   (frequency_gating_amended 4 (by norm_num) 7).1⟩

/-- Counterexample for C6 as stated: at frequency 4 the code's shake tick is
`int(30/4) = 7` while the claim's `max(1, round(30/4))` is 8, so shake fires
at counter 7 although `7 % 8 ≠ 0`; flicker at frequency 5 has code tick 5
(the epsilon pushes `30/(5+1e-6)` below 6) while the claim demands 6. -/
theorem gating_tick_truncates_not_rounds_cex :
    shakeFrameInterval 4 = 7 ∧ specGatingTick 4 = 8 ∧
    shakeShouldJitter 4 7 = true ∧ ¬((7 : ℤ) % specGatingTick 4 = 0) ∧
    flickerFrameInterval 5 = 5 ∧ specGatingTick 5 = 6 := by
  have h1 : shakeFrameInterval 4 = 7 := by
    rw [shakeFrameInterval, pyInt_of_nonneg (by norm_num)]
    norm_num
  have h2 : specGatingTick 4 = 8 := by
    rw [specGatingTick, round_eq]
    norm_num
  have h3 : flickerFrameInterval 5 = 5 := by
    rw [flickerFrameInterval, pyInt_of_nonneg (by norm_num)]
    norm_num
  have h4 : specGatingTick 5 = 6 := by
    rw [specGatingTick, round_eq]
    norm_num
  refine ⟨h1, h2, ?_, ?_, h3, h4⟩
  · rw [shakeShouldJitter, if_pos (by norm_num : (0 : ℚ) < 4), h1]
    decide
  · rw [h2]
    decide

/-- C9.  Shake validation rejects `displacement = 0` (and any
`int(displacement) < 1`) with a validation error; and whenever `displacement`
is supplied and validation succeeds, it overrides `max_offset`: both
normalized fields equal `int(displacement)`, and `apply` draws its random
offsets from `[-displacement, displacement]` and blends with `mix_weight`. -/
theorem shake_displacement_validation :
    (∀ (p : ShakeParams) (d : ℚ), p.displacement = some d → pyInt d < 1 →
      ∃ msg, shakeValidateParams p = Except.error (PyErr.valueError msg)) ∧
    (∀ (p : ShakeParams) (d : ℚ) (out : ShakeParamsOut),
      p.displacement = some d → shakeValidateParams p = Except.ok out →
      out.displacement = pyInt d ∧ out.max_offset = pyInt d) ∧
    (∀ (out : ShakeParamsOut) warpAffine addWeighted (randint : RandIntStream)
        data c, shakeShouldJitter out.frequency c = true →
      (shakeApply out warpAffine addWeighted randint data c).1 =
        addWeighted data out.mix_weight
          (warpAffine data (randint 0 (-out.displacement) (out.displacement + 1))
            (randint 1 (-out.displacement) (out.displacement + 1)))
          (1 - out.mix_weight)) := by
  refine ⟨?_, ?_, ?_⟩
  · intro p d hd hlt
    simp only [shakeValidateParams, hd]
    by_cases h1 : pyInt (p.max_offset.getD 5) < 1
    · rw [if_pos h1]
      exact ⟨_, rfl⟩
    · rw [if_neg h1, if_pos hlt]
      exact ⟨_, rfl⟩
  · intro p d out hd hok
    simp only [shakeValidateParams, hd] at hok
    by_cases h1 : pyInt (p.max_offset.getD 5) < 1
    · rw [if_pos h1] at hok
      exact absurd hok (by simp)
    · rw [if_neg h1] at hok
      by_cases h2 : pyInt d < 1
      · rw [if_pos h2] at hok
        exact absurd hok (by simp)
      · rw [if_neg h2] at hok
        exact ⟨(shakeValidateRest_ok hok).2, (shakeValidateRest_ok hok).1⟩
  · intro out warpAffine addWeighted randint data c htrue
    simp [shakeApply, htrue]

/-- Witness for C9: `displacement = 0` is rejected; `displacement = 3`
overrides the default `max_offset = 5`. -/
theorem shake_displacement_validation_witness :
    (∃ msg, shakeValidateParams ⟨none, none, none, some 0⟩ =
      Except.error (PyErr.valueError msg)) ∧
    ((⟨3, 1/2, 0, 3⟩ : ShakeParamsOut).displacement = pyInt 3 ∧
      (⟨3, 1/2, 0, 3⟩ : ShakeParamsOut).max_offset = pyInt 3) := by
  constructor
  · exact shake_displacement_validation.1 ⟨none, none, none, some 0⟩ 0 rfl
      (by norm_num [pyInt])
  · exact shake_displacement_validation.2.1 ⟨none, none, none, some 3⟩ 3
      ⟨3, 1/2, 0, 3⟩ rfl
      (by norm_num [shakeValidateParams, shakeValidateRest, pyInt])

/-- C10.  Every call to `apply` of the frequency-gated effects shake and
flicker increments the per-instance frame counter by exactly one, whether or
not the effect fired on that frame; hence after `n` calls the counter is
`n`. -/
theorem frame_counter_increments_each_apply :
    (∀ p warpAffine addWeighted randint data frame_counter,
      (shakeApply p warpAffine addWeighted randint data frame_counter).2 =
        frame_counter + 1) ∧
    (∀ p rand uniform data frame_counter,
      (flickerApply p rand uniform data frame_counter).2 = frame_counter + 1) ∧
    (∀ p warpAffine addWeighted randints frames (n : ℕ),
      shakeCounterAfter p warpAffine addWeighted randints frames n = n) ∧
    (∀ p rands uniform frames (n : ℕ),
      flickerCounterAfter p rands uniform frames n = n) := by
  have hs : ∀ p warpAffine addWeighted randint data frame_counter,
      (shakeApply p warpAffine addWeighted randint data frame_counter).2 =
        frame_counter + 1 := by
    intro p warpAffine addWeighted randint data frame_counter
    unfold shakeApply
    split <;> rfl
  have hf : ∀ p rand uniform data frame_counter,
      (flickerApply p rand uniform data frame_counter).2 = frame_counter + 1 := by
    intro p rand uniform data frame_counter
    rfl
  refine ⟨hs, hf, ?_, ?_⟩
  · intro p warpAffine addWeighted randints frames n
    induction n with
    | zero => rfl
    | succ k ih =>
      rw [shakeCounterAfter, hs, ih]
  · intro p rands uniform frames n
    induction n with
    | zero => rfl
    | succ k ih =>
      rw [flickerCounterAfter, hf, ih]

end Degrade
